import Mathlib

/-!
Shallow embedding of the convertly-web conversion service (`src/app.py`):
the file validator, the bounded-time executor, the `/convert` job
lifecycle, quota accounting, payment confirmation, and the retention
sweep.  Python strings are modelled as lists of characters; machine
effects (file system, the converter routine, `os.remove` failures, the
payment provider) are modelled as explicit oracles passed in.
-/

/-- Python strings, modelled as lists of characters. -/
abbrev PyStr := List Char

/-- Coerce a Lean string literal into the model's string type. -/
def pystr (s : String) : PyStr := s.toList

/-- Python `str.lower()` (applied to ASCII file extensions). -/
def pyLower (s : PyStr) : PyStr := s.map Char.toLower

/-- `os.path.basename`: the part of the path after the last slash. -/
def os_path_basename (p : PyStr) : PyStr :=
  ((p.reverse).takeWhile (fun c => c ≠ '/')).reverse

/-- The directory part of a path, up to and including the last slash. -/
def dirPart (p : PyStr) : PyStr :=
  ((p.reverse).dropWhile (fun c => c ≠ '/')).reverse

/-- `os.path.splitext` restricted to a slash-free basename: split at the
last dot, except that when every character before that dot is itself a
dot there is no extension (leading dots belong to the file name, as in
CPython's `genericpath._splitext`). -/
def splitextBase (b : PyStr) : PyStr × PyStr :=
  match (b.reverse).dropWhile (fun c => c ≠ '.') with
  | [] => (b, [])
  | _ :: before =>
    if before.any (fun c => c ≠ '.') then
      (before.reverse, '.' :: ((b.reverse).takeWhile (fun c => c ≠ '.')).reverse)
    else (b, [])

/-- `os.path.splitext`: split the extension off the final path
component; dots inside directory components are ignored. -/
def os_path_splitext (p : PyStr) : PyStr × PyStr :=
  ((dirPart p) ++ (splitextBase (os_path_basename p)).1,
   (splitextBase (os_path_basename p)).2)

/-- `os.path.join` for two components (POSIX rules). -/
def os_path_join (a b : PyStr) : PyStr :=
  if b.head? = some '/' then b
  else if a = [] ∨ a.getLast? = some '/' then a ++ b
  else a ++ '/' :: b

/-- One conversion mode of the `MODES` table: the produced extension and
the accepted input extensions.  The converter routine itself is an
external collaborator and is modelled separately (`FnBehavior`). -/
structure ModeSpec where
  ext : PyStr
  input_ext : List PyStr
deriving DecidableEq

/-- The `MODES` registry from `src/app.py`. -/
def MODES : List (PyStr × ModeSpec) :=
  [ (pystr "pdf-to-word",  ⟨pystr ".docx", [pystr ".pdf"]⟩),
    (pystr "pdf-to-excel", ⟨pystr ".xlsx", [pystr ".pdf"]⟩),
    (pystr "word-to-pdf",  ⟨pystr ".pdf",  [pystr ".docx", pystr ".doc"]⟩),
    (pystr "excel-to-pdf", ⟨pystr ".pdf",  [pystr ".xlsx", pystr ".xls"]⟩) ]

/-- Dictionary lookup `MODES[mode]` / `mode in MODES`. -/
def MODES_get (k : PyStr) : Option ModeSpec :=
  (MODES.find? (fun kv => kv.1 == k)).map (fun kv => kv.2)

/-- The `ALLOWED_MIME_TYPES` table from `src/app.py`. -/
def ALLOWED_MIME_TYPES : List (PyStr × List PyStr) :=
  [ (pystr ".pdf",  [pystr "application/pdf"]),
    (pystr ".docx", [pystr "application/vnd.openxmlformats-officedocument.wordprocessingml.document"]),
    (pystr ".doc",  [pystr "application/msword"]),
    (pystr ".xlsx", [pystr "application/vnd.openxmlformats-officedocument.spreadsheetml.sheet"]),
    (pystr ".xls",  [pystr "application/vnd.ms-excel"]) ]

/-- `ALLOWED_MIME_TYPES.get(file_ext, [])`. -/
def allowed_mime_types_get (ext : PyStr) : List PyStr :=
  ((ALLOWED_MIME_TYPES.find? (fun kv => kv.1 == ext)).map (fun kv => kv.2)).getD []

/-- An uploaded file object as `validate_file` sees it.  `content_type`
is `none` when the object has no such attribute (the `hasattr` test in
the source); `size` is the measured byte size obtained by
`seek(0, 2)` / `tell()`; `content_length` is the declared size, which
the validator never consults. -/
structure UploadFile where
  filename : PyStr
  content_type : Option PyStr
  size : Nat
  content_length : Option Nat
deriving DecidableEq

/-- The measured-size checks at the end of `validate_file` (the code the
content-type gate falls through to). -/
def sizeGate (f : UploadFile) (max_size : Nat) : Bool × Option PyStr :=
  if f.size > max_size then
    (false, some (pystr "File too large. Maximum size is " ++
      pystr (toString (max_size / (1024 * 1024))) ++ pystr " MB."))
  else if f.size = 0 then
    (false, some (pystr "File is empty."))
  else
    (true, none)

/-- `validate_file(file, allowed_extensions, max_size)` from
`src/app.py`: returns `(is_valid, error_msg)`. -/
def validate_file (file : Option UploadFile) (allowed_extensions : List PyStr)
    (max_size : Nat) : Bool × Option PyStr :=
  match file with
  | none => (false, some (pystr "No file provided."))
  | some f =>
    if f.filename = [] then (false, some (pystr "No file provided."))
    else
      let file_ext := pyLower (os_path_splitext f.filename).2
      if file_ext ∉ allowed_extensions then
        (false, some (pystr "Invalid file type. Allowed: " ++
          List.intercalate (pystr ", ") allowed_extensions))
      else
        match f.content_type with
        | some ct =>
          let allowed_mimes := allowed_mime_types_get file_ext
          if allowed_mimes ≠ [] ∧ ct ∉ allowed_mimes then
            (false, some (pystr "Invalid file format for " ++ file_ext ++ pystr " file."))
          else sizeGate f max_size
        | none => sizeGate f max_size

/-- A Python exception value, as far as the service distinguishes them:
`TimeoutError` (caught specially in `/convert`) versus anything else. -/
inductive PyExc where
  | timeoutError (msg : PyStr)
  | otherExc (name msg : PyStr)
deriving DecidableEq

/-- Behaviour of one invocation of a converter routine relative to the
deadline: it finishes in time returning a value, finishes in time
raising an exception, or is still running when the deadline elapses. -/
inductive FnBehavior (α : Type) where
  | returns (v : α)
  | raises (e : PyExc)
  | hangs
deriving DecidableEq

/-- The mutable slots of `_run_with_timeout` as observed after
`t.join(timeout_seconds)`: the `result` and `exception` cells written by
the worker thread, and whether the thread is still alive. -/
structure ThreadSlots (α : Type) where
  result : Option α
  exception : Option PyExc
  alive : Bool
deriving DecidableEq

/-- The worker thread's effect on the slots (the inner `target`). -/
def runTargetThread {α : Type} (b : FnBehavior α) : ThreadSlots α :=
  match b with
  | .returns v => ⟨some v, none, false⟩
  | .raises e  => ⟨none, some e, false⟩
  | .hangs     => ⟨none, none, true⟩

/-- The message of the `TimeoutError` raised on deadline expiry. -/
def timeoutMessage (timeout_seconds : Nat) : PyStr :=
  pystr "Conversion exceeded " ++ pystr (toString timeout_seconds) ++
    pystr "s time limit."

/-- `_run_with_timeout(fn, args, timeout_seconds)` from `src/app.py`:
after joining with a timeout, raise `TimeoutError` if the thread is
still alive, re-raise the thread's exception if it stored one, and
otherwise return the stored result. -/
def _run_with_timeout {α : Type} (b : FnBehavior α) (timeout_seconds : Nat) :
    Except PyExc (Option α) :=
  let t := runTargetThread b
  if t.alive then .error (.timeoutError (timeoutMessage timeout_seconds))
  else
    match t.exception with
    | some e => .error e
    | none => .ok t.result

/-- The Flask session dictionary: each key is present or absent. -/
structure Session where
  conversions_used : Option Nat
  conversions_budget : Option Nat
  paid : Option Bool
  pending_stripe_session_id : Option PyStr
deriving DecidableEq

/-- The configuration values `src/app.py` reads from the environment. -/
structure Config where
  upload_folder : PyStr
  max_file_size : Nat
  conversion_timeout : Nat
  free_conversions_limit : Nat
  paid_conversions_amount : Nat
  file_expiry_hours : Nat

/-- The working storage area: paths with current byte sizes. -/
abbrev FS := List (PyStr × Nat)

/-- `os.path.exists`. -/
def fsExists (p : PyStr) (fs : FS) : Bool := fs.any (fun e => e.1 == p)

/-- Removing a path (the effect of a successful `os.remove`). -/
def fsRemove (p : PyStr) (fs : FS) : FS := fs.filter (fun e => e.1 != p)

/-- Writing a file of the given size at a path. -/
def fsWrite (p : PyStr) (n : Nat) (fs : FS) : FS := (p, n) :: fsRemove p fs

/-- The external world one `/convert` request runs against: the initial
file system, whether `os.remove` raises for a given path, how the
selected converter routine behaves, and the size of the output file the
routine wrote, if it wrote one. -/
structure World where
  fs : FS
  removeRaises : PyStr → Bool
  converter : FnBehavior Unit
  converterWrites : Option Nat

/-- The responses `/convert` can produce. -/
inductive ConvertResponse where
  | quotaExceeded (used budget : Nat)
  | invalidMode
  | validationError (msg : PyStr)
  | timeoutResponse (msg : PyStr)
  | conversionFailed
  | outputMissing
  | fileResponse (path download_name : PyStr)
deriving DecidableEq

/-- Everything observable about one `/convert` request: the response (or
an exception escaping the handler), the session and file system left
behind, and whether the upload was persisted / a converter invoked. -/
structure ConvertResult where
  response : Except PyExc ConvertResponse
  sessionAfter : Session
  fsAfter : FS
  savedInput : Bool
  converterInvoked : Bool

/-- The uniquely named input path `{folder}/{uid}_{basename(filename)}`. -/
def srcPath (folder uid filename : PyStr) : PyStr :=
  os_path_join folder (uid ++ '_' :: os_path_basename filename)

/-- The output path: the input path with the extension swapped for the
mode's output extension. -/
def outPath (folder uid filename ext : PyStr) : PyStr :=
  (os_path_splitext (srcPath folder uid filename)).1 ++ ext

/-- The `finally` block of `/convert`:
`if os.path.exists(src): os.remove(src)`.  The `os.remove` call is not
guarded, so a failing removal raises out of the block. -/
def inputCleanup (src : PyStr) (w : World) (fs : FS) : Except PyExc FS :=
  if fsExists src fs then
    if w.removeRaises src then
      .error (.otherExc (pystr "OSError") (pystr "input file deletion failed"))
    else .ok (fsRemove src fs)
  else .ok fs

/-- The file system after the converter routine has run: whatever the
routine wrote at the output path, on top of the persisted input. -/
def fsAfterRun (src out : PyStr) (inputSize : Nat) (w : World) : FS :=
  match w.converterWrites with
  | some n => fsWrite out n (fsWrite src inputSize w.fs)
  | none => fsWrite src inputSize w.fs

/-- The `/convert` handler from `src/app.py`: quota gate, mode lookup,
validation, persist, bounded conversion, guaranteed input cleanup,
output check, quota increment, and response. -/
def convert (sess : Session) (mode : Option PyStr) (file : Option UploadFile)
    (uid : PyStr) (cfg : Config) (w : World) : ConvertResult :=
  let conversions_used := sess.conversions_used.getD 0
  let conversions_budget := sess.conversions_budget.getD cfg.free_conversions_limit
  if conversions_used ≥ conversions_budget then
    ⟨.ok (.quotaExceeded conversions_used conversions_budget), sess, w.fs, false, false⟩
  else
    match mode with
    | none => ⟨.ok .invalidMode, sess, w.fs, false, false⟩
    | some m =>
      match MODES_get m with
      | none => ⟨.ok .invalidMode, sess, w.fs, false, false⟩
      | some spec =>
        match file with
        | none =>
          ⟨.ok (.validationError ((validate_file none spec.input_ext cfg.max_file_size).2.getD [])),
           sess, w.fs, false, false⟩
        | some f =>
          let v := validate_file (some f) spec.input_ext cfg.max_file_size
          if ¬ v.1 then
            ⟨.ok (.validationError (v.2.getD [])), sess, w.fs, false, false⟩
          else
            let safe_name := os_path_basename f.filename
            let src := srcPath cfg.upload_folder uid f.filename
            let out := outPath cfg.upload_folder uid f.filename spec.ext
            let fs2 := fsAfterRun src out f.size w
            match _run_with_timeout w.converter cfg.conversion_timeout with
            | .error (.timeoutError msg) =>
              match inputCleanup src w fs2 with
              | .error e => ⟨.error e, sess, fs2, true, true⟩
              | .ok fs3 => ⟨.ok (.timeoutResponse msg), sess, fs3, true, true⟩
            | .error (.otherExc _ _) =>
              match inputCleanup src w fs2 with
              | .error e => ⟨.error e, sess, fs2, true, true⟩
              | .ok fs3 => ⟨.ok .conversionFailed, sess, fs3, true, true⟩
            | .ok _ =>
              match inputCleanup src w fs2 with
              | .error e => ⟨.error e, sess, fs2, true, true⟩
              | .ok fs3 =>
                if ¬ fsExists out fs3 then
                  ⟨.ok .outputMissing, sess, fs3, true, true⟩
                else
                  let sess' := { sess with
                    conversions_used := some (conversions_used + 1),
                    conversions_budget := some conversions_budget }
                  let out_name := (os_path_splitext safe_name).1 ++
                    pystr "_converted" ++ spec.ext
                  ⟨.ok (.fileResponse out out_name), sess', fs3, true, true⟩

/-- The JSON view `/status` returns.  `conversions_remaining` is
`max(budget - used, 0)`, which over naturals is truncated subtraction. -/
structure StatusView where
  conversions_used : Nat
  conversions_budget : Nat
  conversions_remaining : Nat
  paid : Bool
deriving DecidableEq

/-- The `/status` handler: a read-only view of the session. -/
def statusRoute (sess : Session) (cfg : Config) : StatusView × Session :=
  (⟨sess.conversions_used.getD 0,
    sess.conversions_budget.getD cfg.free_conversions_limit,
    sess.conversions_budget.getD cfg.free_conversions_limit -
      sess.conversions_used.getD 0,
    sess.paid.getD false⟩, sess)

/-- The payment provider's answer to
`stripe.checkout.Session.retrieve(session_id)`: either a `StripeError`
or a session object carrying a `payment_status`. -/
inductive StripeRetrieve where
  | raisesStripeError
  | session (payment_status : PyStr)
deriving DecidableEq

/-- The `/payment-success` handler from `src/app.py`: returns the
redirect target and the session left behind. -/
def payment_success (request_session_id : PyStr) (sess : Session)
    (retrieve : StripeRetrieve) (cfg : Config) : PyStr × Session :=
  if request_session_id = [] then (pystr "/?error=missing_session", sess)
  else
    match sess.pending_stripe_session_id with
    | none => (pystr "/?error=invalid_session", sess)
    | some stored_id =>
      if stored_id = [] ∨ stored_id ≠ request_session_id then
        (pystr "/?error=invalid_session", sess)
      else
        match retrieve with
        | .raisesStripeError => (pystr "/?error=stripe_error", sess)
        | .session ps =>
          if ps ≠ pystr "paid" then (pystr "/?error=payment_incomplete", sess)
          else
            (pystr "/?paid=1",
             { sess with
               conversions_budget :=
                 some (sess.conversions_budget.getD cfg.free_conversions_limit +
                   cfg.paid_conversions_amount),
               paid := some true,
               pending_stripe_session_id := none })

/-- One directory entry as `cleanup_old_files` sees it: its name,
whether it is a regular file, its modification time, and whether
`unlink` would raise for it. -/
structure SweepEntry where
  name : PyStr
  isFile : Bool
  mtime : Int
  unlinkRaises : Bool
deriving DecidableEq

/-- The observable outcome of a sweep: the entries still present, the
names logged as cleaned up (in order), and whether the error branch of
the surrounding `try`/`except` logged. -/
structure SweepResult where
  remaining : List SweepEntry
  deletedLog : List PyStr
  errorLogged : Bool
deriving DecidableEq

/-- Is this entry a regular file older than the age bound?  This is the
condition of the `if` inside the sweep loop. -/
def isStale (current_time max_age_seconds : Int) (e : SweepEntry) : Bool :=
  e.isFile && decide (current_time - e.mtime > max_age_seconds)

/-- The `for` loop of `cleanup_old_files`, inside its `try`: a raising
`unlink` aborts the loop and is caught by the surrounding `except`,
which logs and returns. -/
def sweepLoop (current_time max_age_seconds : Int) :
    List SweepEntry → SweepResult
  | [] => ⟨[], [], false⟩
  | e :: rest =>
    if isStale current_time max_age_seconds e then
      if e.unlinkRaises then ⟨e :: rest, [], true⟩
      else
        let r := sweepLoop current_time max_age_seconds rest
        ⟨r.remaining, e.name :: r.deletedLog, r.errorLogged⟩
    else
      let r := sweepLoop current_time max_age_seconds rest
      ⟨e :: r.remaining, r.deletedLog, r.errorLogged⟩

/-- `cleanup_old_files(max_age_hours)` from `src/app.py`: no-op when the
upload folder does not exist, otherwise sweep its entries.  The whole
body is wrapped in `try`/`except`, so the function itself never
raises. -/
def cleanup_old_files (max_age_hours : Nat) (folderExists : Bool)
    (current_time : Int) (entries : List SweepEntry) : SweepResult :=
  if ¬ folderExists then ⟨entries, [], false⟩
  else sweepLoop current_time ((max_age_hours : Int) * 3600) entries

/-- `session.get("conversions_used", 0)`. -/
def usedOf (sess : Session) : Nat := sess.conversions_used.getD 0

/-- `session.get("conversions_budget", FREE_CONVERSIONS_LIMIT)`. -/
def budgetOf (cfg : Config) (sess : Session) : Nat :=
  sess.conversions_budget.getD cfg.free_conversions_limit

/-- Did `/convert` answer with the converted file (the 200 branch)? -/
def isFileResponse : Except PyExc ConvertResponse → Bool
  | .ok (.fileResponse _ _) => true
  | _ => false

/-- A configuration with the source's default limits (32 MB cap scaled
down, free limit 3, top-up 20, 120 s timeout, 24 h expiry). -/
def sampleCfg : Config := ⟨pystr "uploads", 1000, 120, 3, 20, 24⟩

/-- A fresh session: no keys set yet except the counters. -/
def sampleSession : Session := ⟨some 0, some 3, none, none⟩

/-- A session whose quota is exhausted (`budget=3, used=3`). -/
def exhaustedSession : Session := ⟨some 3, some 3, none, none⟩

/-- A well-formed 5-byte PDF upload. -/
def samplePdfUpload : UploadFile :=
  ⟨pystr "doc.pdf", some (pystr "application/pdf"), 5, none⟩

/-- A world where the converter succeeds, writes a 10-byte output, and
`os.remove` works. -/
def okWorld : World := ⟨[], fun _ => false, .returns (), some 10⟩

/-- A world identical to `okWorld` except that `os.remove` raises. -/
def removeFailWorld : World := ⟨[], fun _ => true, .returns (), some 10⟩

/-- A world where the converter reports success but the output file it
wrote is empty (0 bytes). -/
def emptyOutWorld : World := ⟨[], fun _ => false, .returns (), some 0⟩

/-- C3: `_run_with_timeout` yields exactly one of three outcomes: a
routine finishing within the deadline without raising yields its result;
a routine finishing within the deadline with a failure has that same
failure cause re-raised to the caller; a routine still running at the
deadline yields a `TimeoutError` instead of further waiting. -/
theorem run_with_timeout_trichotomy {α : Type} (timeout_seconds : Nat) :
    (∀ v : α, _run_with_timeout (.returns v) timeout_seconds = .ok (some v)) ∧
    (∀ e : PyExc,
      _run_with_timeout (.raises e : FnBehavior α) timeout_seconds = .error e) ∧
    _run_with_timeout (.hangs : FnBehavior α) timeout_seconds =
      .error (.timeoutError (timeoutMessage timeout_seconds)) :=
  ⟨fun _ => rfl, fun _ => rfl, rfl⟩

/-- C2: when `used >= budget`, `/convert` answers quota-exceeded with
the current figures before doing anything else: the session, the file
system, and the effect flags are untouched, and the answer does not
depend on the submitted mode, file, or the rest of the world. -/
theorem convert_quota_gate (sess : Session) (mode : Option PyStr)
    (file : Option UploadFile) (uid : PyStr) (cfg : Config) (w : World)
    (h : usedOf sess ≥ budgetOf cfg sess) :
    convert sess mode file uid cfg w =
      ⟨.ok (.quotaExceeded (usedOf sess) (budgetOf cfg sess)),
       sess, w.fs, false, false⟩ := by
  unfold usedOf budgetOf at h
  unfold convert
  simp [h, usedOf, budgetOf]

/-- C2 witness: a session with `budget=3, used=3` is refused with those
figures and nothing changes. -/
theorem convert_quota_gate_witness :
    usedOf exhaustedSession ≥ budgetOf sampleCfg exhaustedSession ∧
    convert exhaustedSession (some (pystr "pdf-to-word")) (some samplePdfUpload)
        (pystr "abc123") sampleCfg okWorld =
      ⟨.ok (.quotaExceeded (usedOf exhaustedSession)
          (budgetOf sampleCfg exhaustedSession)),
       exhaustedSession, okWorld.fs, false, false⟩ :=
  ⟨by decide,
   convert_quota_gate exhaustedSession (some (pystr "pdf-to-word"))
     (some samplePdfUpload) (pystr "abc123") sampleCfg okWorld (by decide)⟩

/-- C1 (code bug): on a request that passes validation and converts
successfully, a failing `os.remove` of the input file raises out of the
unguarded `finally` block and replaces the success response with the
exception; the quota increment is also lost. -/
theorem convert_cleanup_error_replaces_response :
    (convert sampleSession (some (pystr "pdf-to-word")) (some samplePdfUpload)
        (pystr "abc123") sampleCfg removeFailWorld).response =
      .error (.otherExc (pystr "OSError") (pystr "input file deletion failed")) ∧
    (convert sampleSession (some (pystr "pdf-to-word")) (some samplePdfUpload)
        (pystr "abc123") sampleCfg removeFailWorld).sessionAfter = sampleSession ∧
    (convert sampleSession (some (pystr "pdf-to-word")) (some samplePdfUpload)
        (pystr "abc123") sampleCfg okWorld).response =
      .ok (.fileResponse
        (outPath (pystr "uploads") (pystr "abc123") (pystr "doc.pdf") (pystr ".docx"))
        (pystr "doc_converted.docx")) :=
  ⟨rfl, rfl, rfl⟩

/-- C8 (counterexample): with a converter that reports success but
writes a zero-byte output file, `/convert` streams the empty output and
commits the quota increment instead of surfacing an output-missing
error: only existence of the output path is checked, not emptiness. -/
theorem convert_streams_empty_output :
    emptyOutWorld.converterWrites = some 0 ∧
    (convert sampleSession (some (pystr "pdf-to-word")) (some samplePdfUpload)
        (pystr "abc123") sampleCfg emptyOutWorld).response =
      .ok (.fileResponse
        (outPath (pystr "uploads") (pystr "abc123") (pystr "doc.pdf") (pystr ".docx"))
        (pystr "doc_converted.docx")) ∧
    usedOf (convert sampleSession (some (pystr "pdf-to-word"))
        (some samplePdfUpload) (pystr "abc123") sampleCfg emptyOutWorld).sessionAfter =
      usedOf sampleSession + 1 :=
  ⟨rfl, rfl, rfl⟩

/-- A path just written is present. -/
theorem fsExists_fsWrite_self (p : PyStr) (n : Nat) (fs : FS) :
    fsExists p (fsWrite p n fs) = true := by
  simp [fsExists, fsWrite]

/-- Writing another path preserves presence of `p`. -/
theorem fsExists_fsWrite_other (p q : PyStr) (n : Nat) (fs : FS)
    (h : fsExists p fs = true) : fsExists p (fsWrite q n fs) = true := by
  by_cases hpq : q = p
  · subst hpq; exact fsExists_fsWrite_self _ n fs
  · unfold fsExists at h
    rw [List.any_eq_true] at h
    obtain ⟨e, he, hep⟩ := h
    have hep' : e.1 = p := by simpa using hep
    unfold fsExists fsWrite fsRemove
    simp only [List.any_cons, Bool.or_eq_true]
    refine Or.inr ?_
    rw [List.any_eq_true]
    refine ⟨e, List.mem_filter.mpr ⟨he, ?_⟩, hep⟩
    rw [bne_iff_ne]
    intro hh
    exact hpq (hh ▸ hep')

/-- The persisted input path is present in the file system the
`finally` block observes, whatever the converter wrote. -/
theorem fsExists_fsAfterRun_src (src out : PyStr) (n : Nat) (w : World) :
    fsExists src (fsAfterRun src out n w) = true := by
  unfold fsAfterRun
  cases w.converterWrites with
  | none => exact fsExists_fsWrite_self src n w.fs
  | some m => exact fsExists_fsWrite_other src out m _ (fsExists_fsWrite_self src n w.fs)

/-- C8 (amended): when the bounded run returns Ok, `/convert` verifies
only that the output path exists before committing the quota increment
and streaming the result — emptiness of the output is not checked; if
the output path is missing, it surfaces an output-missing error and no
quota increment occurs. -/
theorem convert_output_existence_check (sess : Session) (m : PyStr)
    (spec : ModeSpec) (f : UploadFile) (uid : PyStr) (cfg : Config) (w : World)
    (hq : usedOf sess < budgetOf cfg sess)
    (hm : MODES_get m = some spec)
    (hv : (validate_file (some f) spec.input_ext cfg.max_file_size).1 = true)
    (hc : w.converter = .returns ())
    (hr : w.removeRaises (srcPath cfg.upload_folder uid f.filename) = false) :
    convert sess (some m) (some f) uid cfg w =
      (if fsExists (outPath cfg.upload_folder uid f.filename spec.ext)
          (fsRemove (srcPath cfg.upload_folder uid f.filename)
            (fsAfterRun (srcPath cfg.upload_folder uid f.filename)
              (outPath cfg.upload_folder uid f.filename spec.ext) f.size w)) then
        ⟨.ok (.fileResponse (outPath cfg.upload_folder uid f.filename spec.ext)
            ((os_path_splitext (os_path_basename f.filename)).1 ++
              pystr "_converted" ++ spec.ext)),
         { sess with conversions_used := some (usedOf sess + 1),
                     conversions_budget := some (budgetOf cfg sess) },
         fsRemove (srcPath cfg.upload_folder uid f.filename)
           (fsAfterRun (srcPath cfg.upload_folder uid f.filename)
             (outPath cfg.upload_folder uid f.filename spec.ext) f.size w),
         true, true⟩
       else
        ⟨.ok .outputMissing, sess,
         fsRemove (srcPath cfg.upload_folder uid f.filename)
           (fsAfterRun (srcPath cfg.upload_folder uid f.filename)
             (outPath cfg.upload_folder uid f.filename spec.ext) f.size w),
         true, true⟩) := by
  have hq' : ¬ sess.conversions_used.getD 0 ≥
      sess.conversions_budget.getD cfg.free_conversions_limit := by
    unfold usedOf budgetOf at hq; omega
  have hsrc := fsExists_fsAfterRun_src (srcPath cfg.upload_folder uid f.filename)
    (outPath cfg.upload_folder uid f.filename spec.ext) f.size w
  unfold convert
  simp only [hq', if_false, hm, hc, hv, _run_with_timeout, runTargetThread,
    inputCleanup, hr, hsrc, usedOf, budgetOf, ite_false, ite_true,
    Bool.false_eq_true, not_false_eq_true, if_true, if_neg, not_true_eq_false]
  by_cases hout : fsExists (outPath cfg.upload_folder uid f.filename spec.ext)
      (fsRemove (srcPath cfg.upload_folder uid f.filename)
        (fsAfterRun (srcPath cfg.upload_folder uid f.filename)
          (outPath cfg.upload_folder uid f.filename spec.ext) f.size w)) = true
  · simp [hout]
  · simp [hout]

/-- C8 witness: a concrete in-quota PDF upload whose converter succeeds
and writes an output takes the existence-gated branch. -/
theorem convert_output_existence_check_witness :
    usedOf sampleSession < budgetOf sampleCfg sampleSession ∧
    (validate_file (some samplePdfUpload) [pystr ".pdf"] sampleCfg.max_file_size).1 = true ∧
    convert sampleSession (some (pystr "pdf-to-word")) (some samplePdfUpload)
        (pystr "abc123") sampleCfg okWorld =
      (if fsExists (outPath sampleCfg.upload_folder (pystr "abc123")
            samplePdfUpload.filename (pystr ".docx"))
          (fsRemove (srcPath sampleCfg.upload_folder (pystr "abc123")
              samplePdfUpload.filename)
            (fsAfterRun (srcPath sampleCfg.upload_folder (pystr "abc123")
                samplePdfUpload.filename)
              (outPath sampleCfg.upload_folder (pystr "abc123")
                samplePdfUpload.filename (pystr ".docx"))
              samplePdfUpload.size okWorld)) then
        ⟨.ok (.fileResponse (outPath sampleCfg.upload_folder (pystr "abc123")
              samplePdfUpload.filename (pystr ".docx"))
            ((os_path_splitext (os_path_basename samplePdfUpload.filename)).1 ++
              pystr "_converted" ++ pystr ".docx")),
         { sampleSession with
             conversions_used := some (usedOf sampleSession + 1),
             conversions_budget := some (budgetOf sampleCfg sampleSession) },
         fsRemove (srcPath sampleCfg.upload_folder (pystr "abc123")
             samplePdfUpload.filename)
           (fsAfterRun (srcPath sampleCfg.upload_folder (pystr "abc123")
               samplePdfUpload.filename)
             (outPath sampleCfg.upload_folder (pystr "abc123")
               samplePdfUpload.filename (pystr ".docx"))
             samplePdfUpload.size okWorld),
         true, true⟩
       else
        ⟨.ok .outputMissing, sampleSession,
         fsRemove (srcPath sampleCfg.upload_folder (pystr "abc123")
             samplePdfUpload.filename)
           (fsAfterRun (srcPath sampleCfg.upload_folder (pystr "abc123")
               samplePdfUpload.filename)
             (outPath sampleCfg.upload_folder (pystr "abc123")
               samplePdfUpload.filename (pystr ".docx"))
             samplePdfUpload.size okWorld),
         true, true⟩) :=
  ⟨by decide, by decide,
   convert_output_existence_check sampleSession (pystr "pdf-to-word")
     ⟨pystr ".docx", [pystr ".pdf"]⟩ samplePdfUpload (pystr "abc123") sampleCfg
     okWorld (by decide) (by decide) (by decide) rfl rfl⟩

/-- When no stale entry's `unlink` raises, the sweep loop deletes
exactly the stale files, logs them in order, and logs no error. -/
theorem sweepLoop_no_raises (t M : Int) (l : List SweepEntry)
    (h : ∀ e ∈ l, e.unlinkRaises = false) :
    sweepLoop t M l =
      ⟨l.filter (fun e => ! isStale t M e),
       (l.filter (isStale t M)).map SweepEntry.name, false⟩ := by
  induction l with
  | nil => rfl
  | cons e rest ih =>
    have he : e.unlinkRaises = false := h e (List.mem_cons_self e rest)
    have hrest : ∀ x ∈ rest, x.unlinkRaises = false :=
      fun x hx => h x (List.mem_cons_of_mem e hx)
    by_cases hstale : isStale t M e = true
    · simp [sweepLoop, hstale, he, ih hrest, List.filter_cons]
    · simp only [Bool.not_eq_true] at hstale
      simp [sweepLoop, hstale, ih hrest, List.filter_cons]

/-- Entries that are not stale survive the sweep loop, raising or not. -/
theorem sweepLoop_keeps_young (t M : Int) (l : List SweepEntry) :
    ∀ e ∈ l, isStale t M e = false → e ∈ (sweepLoop t M l).remaining := by
  induction l with
  | nil => intro e he; exact absurd he (List.not_mem_nil e)
  | cons x rest ih =>
    intro e he hy
    rcases List.mem_cons.mp he with rfl | hmem
    · by_cases hstale : isStale t M e = true
      · rw [hy] at hstale; exact absurd hstale (by simp)
      · simp only [Bool.not_eq_true] at hstale
        simp [sweepLoop, hstale]
    · by_cases hstale : isStale t M x = true
      · by_cases hraise : x.unlinkRaises = true
        · simp [sweepLoop, hstale, hraise, List.mem_cons_of_mem x hmem]
        · simp only [Bool.not_eq_true] at hraise
          simp [sweepLoop, hstale, hraise]
          exact ih e hmem hy
      · simp only [Bool.not_eq_true] at hstale
        simp only [sweepLoop, hstale, if_false]
        exact List.mem_cons_of_mem x (ih e hmem hy)

/-- C6 (amended): `cleanup_old_files(maxAgeHours)` deletes every file in
the working storage area older than `maxAgeHours` and leaves every
younger file untouched, logging each deletion, as long as no per-file
deletion errors; a per-file error is logged and caught (the function
never raises) but aborts the rest of the sweep rather than continuing
with the remaining files; younger files are never deleted even then. -/
theorem cleanup_old_files_age_policy (max_age_hours : Nat) (t : Int)
    (entries : List SweepEntry) :
    ((∀ e ∈ entries, e.unlinkRaises = false) →
      cleanup_old_files max_age_hours true t entries =
        ⟨entries.filter (fun e => ! isStale t ((max_age_hours : Int) * 3600) e),
         (entries.filter (isStale t ((max_age_hours : Int) * 3600))).map
           SweepEntry.name,
         false⟩) ∧
    (∀ e ∈ entries, isStale t ((max_age_hours : Int) * 3600) e = false →
      e ∈ (cleanup_old_files max_age_hours true t entries).remaining) := by
  constructor
  · intro h
    unfold cleanup_old_files
    simp only [not_true_eq_false, if_false]
    exact sweepLoop_no_raises t _ entries h
  · intro e he hy
    unfold cleanup_old_files
    simp only [not_true_eq_false, if_false]
    exact sweepLoop_keeps_young t _ entries e he hy

/-- A 25-hour-old regular file whose deletion raises. -/
def staleRaisingEntry : SweepEntry := ⟨pystr "a.pdf", true, 0, true⟩

/-- A 25-hour-old regular file whose deletion works. -/
def staleEntry : SweepEntry := ⟨pystr "b.pdf", true, 0, false⟩

/-- A 1-hour-old regular file. -/
def youngEntry : SweepEntry :=
  ⟨pystr "c.pdf", true, 90000 - 3600, false⟩

/-- C6 (counterexample): sweeping with `maxAgeHours = 24` a directory
holding two 25-hour-old files where deleting the first raises, the
error is logged and the sweep stops: the second stale file is not
deleted, contradicting per-file log-and-continue. -/
theorem cleanup_old_files_abort_on_error :
    cleanup_old_files 24 true 90000 [staleRaisingEntry, staleEntry] =
      ⟨[staleRaisingEntry, staleEntry], [], true⟩ ∧
    isStale 90000 ((24 : Int) * 3600) staleEntry = true := by
  constructor
  · rfl
  · decide

/-- C6 witness: with `maxAgeHours = 24` and no deletion errors, a
25-hour-old file is deleted and logged while a 1-hour-old file is kept;
a 1-hour-old file also survives a sweep in which an earlier stale
file's deletion raised. -/
theorem cleanup_old_files_age_policy_witness :
    cleanup_old_files 24 true 90000 [staleEntry, youngEntry] =
      ⟨[youngEntry], [pystr "b.pdf"], false⟩ ∧
    youngEntry ∈ (cleanup_old_files 24 true 90000
      [staleRaisingEntry, youngEntry]).remaining := by
  constructor
  · have h := (cleanup_old_files_age_policy 24 90000 [staleEntry, youngEntry]).1
      (by decide)
    rw [h]
    decide
  · exact (cleanup_old_files_age_policy 24 90000 [staleRaisingEntry, youngEntry]).2
      youngEntry (by decide) (by decide)

/-- C5: a budget top-up is granted exactly when the returned session
identifier is non-empty, matches the stored pending nonce, and the
provider confirms paid status; on any mismatch, missing nonce, provider
error, or non-paid status the session (its budget and `paid` flag
included) is left entirely unchanged; and a grant clears the nonce, so
a second confirmation attempt changes nothing — at most one top-up per
issued nonce. -/
theorem payment_topup_guarded (sid : PyStr) (sess : Session)
    (r : StripeRetrieve) (cfg : Config) :
    ((payment_success sid sess r cfg).1 = pystr "/?paid=1" ↔
      (sid ≠ [] ∧ sess.pending_stripe_session_id = some sid ∧
        r = .session (pystr "paid"))) ∧
    ((payment_success sid sess r cfg).1 ≠ pystr "/?paid=1" →
      (payment_success sid sess r cfg).2 = sess) ∧
    ((payment_success sid sess r cfg).1 = pystr "/?paid=1" →
      budgetOf cfg (payment_success sid sess r cfg).2 =
        budgetOf cfg sess + cfg.paid_conversions_amount ∧
      (payment_success sid sess r cfg).2.paid = some true ∧
      (payment_success sid sess r cfg).2.pending_stripe_session_id = none ∧
      ∀ (sid2 : PyStr) (r2 : StripeRetrieve),
        (payment_success sid2 (payment_success sid sess r cfg).2 r2 cfg).2 =
          (payment_success sid sess r cfg).2) := by
  by_cases hsid : sid = []
  · have hres : payment_success sid sess r cfg =
        (pystr "/?error=missing_session", sess) := by
      simp [payment_success, hsid]
    rw [hres]
    have hner : pystr "/?error=missing_session" ≠ pystr "/?paid=1" := by decide
    refine ⟨⟨fun h => absurd h hner, ?_⟩, fun _ => rfl, fun h => absurd h hner⟩
    rintro ⟨h1, -, -⟩
    exact absurd hsid h1
  · cases hp : sess.pending_stripe_session_id with
    | none =>
      have hres : payment_success sid sess r cfg =
          (pystr "/?error=invalid_session", sess) := by
        simp [payment_success, hsid, hp]
      rw [hres]
      have hner : pystr "/?error=invalid_session" ≠ pystr "/?paid=1" := by decide
      refine ⟨⟨fun h => absurd h hner, ?_⟩, fun _ => rfl, fun h => absurd h hner⟩
      rintro ⟨-, h2, -⟩
      exact Option.noConfusion h2
    | some stored =>
      by_cases hm : stored = [] ∨ stored ≠ sid
      · have hres : payment_success sid sess r cfg =
            (pystr "/?error=invalid_session", sess) := by
          simp [payment_success, hsid, hp, hm]
        rw [hres]
        have hner : pystr "/?error=invalid_session" ≠ pystr "/?paid=1" := by decide
        refine ⟨⟨fun h => absurd h hner, ?_⟩, fun _ => rfl, fun h => absurd h hner⟩
        rintro ⟨-, h2, -⟩
        have hss : stored = sid := by injection h2
        rcases hm with h1 | h1
        · exact absurd (hss ▸ h1 : sid = []) hsid
        · exact absurd hss h1
      · push_neg at hm
        obtain ⟨hs1, hs2⟩ := hm
        subst hs2
        cases r with
        | raisesStripeError =>
          have hres : payment_success stored sess .raisesStripeError cfg =
              (pystr "/?error=stripe_error", sess) := by
            simp [payment_success, hsid, hp]
          rw [hres]
          have hner : pystr "/?error=stripe_error" ≠ pystr "/?paid=1" := by decide
          refine ⟨⟨fun h => absurd h hner, ?_⟩, fun _ => rfl, fun h => absurd h hner⟩
          rintro ⟨-, -, h3⟩
          exact StripeRetrieve.noConfusion h3
        | session ps =>
          by_cases hps : ps = pystr "paid"
          · subst hps
            have hres : payment_success stored sess
                (.session (pystr "paid")) cfg =
                (pystr "/?paid=1",
                 { sess with
                   conversions_budget :=
                     some (sess.conversions_budget.getD
                       cfg.free_conversions_limit + cfg.paid_conversions_amount),
                   paid := some true,
                   pending_stripe_session_id := none }) := by
              simp [payment_success, hsid, hp]
            rw [hres]
            refine ⟨⟨fun _ => ⟨hsid, rfl, rfl⟩, fun _ => rfl⟩,
              fun h => absurd rfl h,
              fun _ => ⟨by simp [budgetOf], rfl, rfl, ?_⟩⟩
            intro sid2 r2
            by_cases h2 : sid2 = [] <;> simp [payment_success, h2]
          · have hres : payment_success stored sess (.session ps) cfg =
                (pystr "/?error=payment_incomplete", sess) := by
              simp [payment_success, hsid, hp, hps]
            rw [hres]
            have hner : pystr "/?error=payment_incomplete" ≠ pystr "/?paid=1" := by
              decide
            refine ⟨⟨fun h => absurd h hner, ?_⟩, fun _ => rfl, fun h => absurd h hner⟩
            rintro ⟨-, -, h3⟩
            have hps' : ps = pystr "paid" := by injection h3
            exact absurd hps' hps

/-- A session with a pending payment nonce `cs_123`. -/
def pendingSession : Session := ⟨some 0, some 3, none, some (pystr "cs_123")⟩

/-- C5 witness: a matching paid confirmation is granted; a mismatched
identifier changes nothing; replaying the matching confirmation after
the grant changes nothing either. -/
theorem payment_topup_guarded_witness :
    (payment_success (pystr "cs_123") pendingSession
        (.session (pystr "paid")) sampleCfg).1 = pystr "/?paid=1" ∧
    (payment_success (pystr "cs_999") pendingSession
        (.session (pystr "paid")) sampleCfg).2 = pendingSession ∧
    (payment_success (pystr "cs_123")
        (payment_success (pystr "cs_123") pendingSession
          (.session (pystr "paid")) sampleCfg).2
        (.session (pystr "paid")) sampleCfg).2 =
      (payment_success (pystr "cs_123") pendingSession
        (.session (pystr "paid")) sampleCfg).2 := by
  have h1 := (payment_topup_guarded (pystr "cs_123") pendingSession
    (.session (pystr "paid")) sampleCfg).1.mpr ⟨by decide, rfl, rfl⟩
  refine ⟨h1, ?_, ?_⟩
  · exact (payment_topup_guarded (pystr "cs_999") pendingSession
      (.session (pystr "paid")) sampleCfg).2.1 (by decide)
  · exact ((payment_topup_guarded (pystr "cs_123") pendingSession
      (.session (pystr "paid")) sampleCfg).2.2 h1).2.2.2 (pystr "cs_123")
      (.session (pystr "paid"))

/-- `/payment-success` either leaves the session unchanged (with a
non-grant redirect) or answers the grant redirect with exactly the
topped-up session. -/
theorem payment_success_split (sid : PyStr) (sess : Session)
    (r : StripeRetrieve) (cfg : Config) :
    ((payment_success sid sess r cfg).1 ≠ pystr "/?paid=1" ∧
      (payment_success sid sess r cfg).2 = sess) ∨
    ((payment_success sid sess r cfg).1 = pystr "/?paid=1" ∧
      (payment_success sid sess r cfg).2 =
        { sess with
          conversions_budget :=
            some (sess.conversions_budget.getD cfg.free_conversions_limit +
              cfg.paid_conversions_amount),
          paid := some true,
          pending_stripe_session_id := none }) := by
  have h1 : ¬ pystr "/?error=missing_session" = pystr "/?paid=1" := by decide
  have h2 : ¬ pystr "/?error=invalid_session" = pystr "/?paid=1" := by decide
  have h3 : ¬ pystr "/?error=stripe_error" = pystr "/?paid=1" := by decide
  have h4 : ¬ pystr "/?error=payment_incomplete" = pystr "/?paid=1" := by decide
  unfold payment_success
  split
  · exact Or.inl ⟨fun h => h1 h, rfl⟩
  · split
    · exact Or.inl ⟨fun h => h2 h, rfl⟩
    · split
      · exact Or.inl ⟨fun h => h2 h, rfl⟩
      · split
        · exact Or.inl ⟨fun h => h3 h, rfl⟩
        · split
          · exact Or.inl ⟨fun h => h4 h, rfl⟩
          · exact Or.inr ⟨rfl, rfl⟩

/-- Across every branch of `/convert`, the session is either untouched
(and the response is not the file response) or, exactly on the
file-response branch, updated by incrementing `used` by one and
rewriting `budget` with its current value. -/
theorem convert_session_split (sess : Session) (mode : Option PyStr)
    (file : Option UploadFile) (uid : PyStr) (cfg : Config) (w : World) :
    ((convert sess mode file uid cfg w).sessionAfter = sess ∧
      isFileResponse (convert sess mode file uid cfg w).response = false) ∨
    ((convert sess mode file uid cfg w).sessionAfter =
        { sess with conversions_used := some (usedOf sess + 1),
                    conversions_budget := some (budgetOf cfg sess) } ∧
      isFileResponse (convert sess mode file uid cfg w).response = true) := by
  simp only [convert]
  repeat' split
  all_goals
    first
      | exact Or.inl ⟨rfl, rfl⟩
      | exact Or.inr ⟨rfl, rfl⟩

/-- C4: the session counter `used` only increases — `/convert` adds
exactly 1 on its file-response branch and 0 on every other branch, and
never changes the effective `budget`; `/status` leaves the session
untouched; `/payment-success` never changes `used` and raises `budget`
by exactly the configured top-up amount on a grant and by 0
otherwise. -/
theorem quota_counters_monotone (sess : Session) (mode : Option PyStr)
    (file : Option UploadFile) (uid : PyStr) (cfg : Config) (w : World)
    (sid : PyStr) (r : StripeRetrieve) :
    usedOf (convert sess mode file uid cfg w).sessionAfter =
      usedOf sess +
        (if isFileResponse (convert sess mode file uid cfg w).response
          then 1 else 0) ∧
    budgetOf cfg (convert sess mode file uid cfg w).sessionAfter =
      budgetOf cfg sess ∧
    (statusRoute sess cfg).2 = sess ∧
    usedOf (payment_success sid sess r cfg).2 = usedOf sess ∧
    budgetOf cfg (payment_success sid sess r cfg).2 =
      budgetOf cfg sess +
        (if (payment_success sid sess r cfg).1 = pystr "/?paid=1"
          then cfg.paid_conversions_amount else 0) := by
  refine ⟨?_, ?_, rfl, ?_, ?_⟩
  · rcases convert_session_split sess mode file uid cfg w with
      ⟨heq, hresp⟩ | ⟨heq, hresp⟩ <;>
      simp [heq, hresp, usedOf]
  · rcases convert_session_split sess mode file uid cfg w with
      ⟨heq, hresp⟩ | ⟨heq, hresp⟩ <;>
      simp [heq, hresp, budgetOf]
  · rcases payment_success_split sid sess r cfg with ⟨-, heq⟩ | ⟨-, heq⟩ <;>
      simp [heq, usedOf]
  · rcases payment_success_split sid sess r cfg with ⟨hne, heq⟩ | ⟨hg, heq⟩
    · rw [heq, if_neg hne]
      rfl
    · rw [heq, if_pos hg]
      simp [budgetOf]


/-- Every extension accepted by a registered mode has a non-empty MIME
allow-list. -/
theorem mime_list_nonempty_of_mode (kv : PyStr × ModeSpec) (ext : PyStr)
    (hkv : kv ∈ MODES) (h2 : ext ∈ kv.2.input_ext) :
    allowed_mime_types_get ext ≠ [] := by
  simp only [ MODES, List.mem_cons, List.not_mem_nil, or_false] at hkv
  rcases hkv with rfl | rfl | rfl | rfl <;>
    simp only [List.mem_cons, List.not_mem_nil, or_false] at h2
  · rw [h2]; decide
  · rw [h2]; decide
  · rcases h2 with h2 | h2 <;> rw [h2] <;> decide
  · rcases h2 with h2 | h2 <;> rw [h2] <;> decide

/-- C7: for an upload with a non-empty filename whose lowercased
extension is accepted by a registered mode, a declared content-type
outside the extension's allow-list is rejected as "invalid file
format", while an absent declared content-type is not itself a
failure — validation proceeds to the measured-size checks. -/
theorem validate_content_type_gate (kv : PyStr × ModeSpec) (f : UploadFile)
    (max_size : Nat)
    (hkv : kv ∈ MODES)
    (h1 : f.filename ≠ [])
    (h2 : pyLower (os_path_splitext f.filename).2 ∈ kv.2.input_ext) :
    (∀ ct, f.content_type = some ct →
      ct ∉ allowed_mime_types_get (pyLower (os_path_splitext f.filename).2) →
      validate_file (some f) kv.2.input_ext max_size =
        (false, some (pystr "Invalid file format for " ++
          pyLower (os_path_splitext f.filename).2 ++ pystr " file."))) ∧
    (f.content_type = none →
      validate_file (some f) kv.2.input_ext max_size = sizeGate f max_size) := by
  have hmime := mime_list_nonempty_of_mode kv
    (pyLower (os_path_splitext f.filename).2) hkv h2
  constructor
  · intro ct hct hnot
    simp [validate_file, h1, h2, hct, hmime, hnot]
  · intro hct
    simp [validate_file, h1, h2, hct]

/-- C7 witness: a `.pdf` upload declaring `text/plain` is rejected as an
invalid format; the same upload with no declared content-type falls
through to the size checks (and, being 5 bytes under a 1000-byte cap,
is accepted). -/
theorem validate_content_type_gate_witness :
    validate_file (some ⟨pystr "doc.pdf", some (pystr "text/plain"), 5, none⟩)
        [pystr ".pdf"] 1000 =
      (false, some (pystr "Invalid file format for " ++
        pyLower (os_path_splitext (pystr "doc.pdf")).2 ++ pystr " file.")) ∧
    validate_file (some ⟨pystr "doc.pdf", none, 5, none⟩) [pystr ".pdf"] 1000 =
      sizeGate ⟨pystr "doc.pdf", none, 5, none⟩ 1000 ∧
    sizeGate ⟨pystr "doc.pdf", none, 5, none⟩ 1000 = (true, none) :=
  ⟨(validate_content_type_gate
      (pystr "pdf-to-word", ⟨pystr ".docx", [pystr ".pdf"]⟩)
      ⟨pystr "doc.pdf", some (pystr "text/plain"), 5, none⟩ 1000
      (by decide) (by decide) (by decide)).1 (pystr "text/plain") rfl (by decide),
   (validate_content_type_gate
      (pystr "pdf-to-word", ⟨pystr ".docx", [pystr ".pdf"]⟩)
      ⟨pystr "doc.pdf", none, 5, none⟩ 1000
      (by decide) (by decide) (by decide)).2 rfl,
   by decide⟩

/-- C9: for an upload passing the filename, extension, and content-type
checks, validation accepts exactly when the measured size satisfies
`0 < size <= max`; a zero-byte upload is rejected as empty; an upload
over the maximum is rejected as too large; and the result depends only
on the filename, declared content-type, and measured size — never the
declared length. -/
theorem validate_size_gate (f : UploadFile) (allowed : List PyStr)
    (max_size : Nat)
    (h1 : f.filename ≠ [])
    (h2 : pyLower (os_path_splitext f.filename).2 ∈ allowed)
    (h3 : ∀ ct, f.content_type = some ct →
      allowed_mime_types_get (pyLower (os_path_splitext f.filename).2) = [] ∨
      ct ∈ allowed_mime_types_get (pyLower (os_path_splitext f.filename).2)) :
    ((validate_file (some f) allowed max_size).1 = true ↔
      0 < f.size ∧ f.size ≤ max_size) ∧
    (f.size = 0 →
      validate_file (some f) allowed max_size =
        (false, some (pystr "File is empty."))) ∧
    (max_size < f.size →
      validate_file (some f) allowed max_size =
        (false, some (pystr "File too large. Maximum size is " ++
          pystr (toString (max_size / (1024 * 1024))) ++ pystr " MB."))) ∧
    (∀ g : UploadFile, g.filename = f.filename →
      g.content_type = f.content_type → g.size = f.size →
      validate_file (some g) allowed max_size =
        validate_file (some f) allowed max_size) := by
  have hval : validate_file (some f) allowed max_size = sizeGate f max_size := by
    cases hct : f.content_type with
    | none => simp [validate_file, h1, h2, hct]
    | some ct =>
      rcases h3 ct hct with hmt | hmem
      · simp [validate_file, h1, h2, hct, hmt]
      · simp [validate_file, h1, h2, hct, hmem]
  refine ⟨?_, ?_, ?_, ?_⟩
  · rw [hval]
    unfold sizeGate
    split_ifs with hbig hzero <;> simp <;> omega
  · intro hz
    rw [hval]
    simp [sizeGate, hz]
  · intro hbig
    rw [hval]
    simp [sizeGate, hbig]
  · intro g hgf hgc hgs
    cases f
    cases g
    dsimp only at hgf hgc hgs
    subst hgf
    subst hgc
    subst hgs
    rfl

/-- C9 witness: under a 10-byte maximum, a 10-byte upload is accepted,
an 11-byte upload is rejected as too large, a 0-byte upload is rejected
as empty, and changing only the declared length changes nothing. -/
theorem validate_size_gate_witness :
    (validate_file (some ⟨pystr "doc.pdf", some (pystr "application/pdf"), 10, none⟩)
        [pystr ".pdf"] 10).1 = true ∧
    validate_file (some ⟨pystr "doc.pdf", some (pystr "application/pdf"), 11, none⟩)
        [pystr ".pdf"] 10 =
      (false, some (pystr "File too large. Maximum size is " ++
        pystr (toString (10 / (1024 * 1024))) ++ pystr " MB.")) ∧
    validate_file (some ⟨pystr "doc.pdf", some (pystr "application/pdf"), 0, none⟩)
        [pystr ".pdf"] 10 =
      (false, some (pystr "File is empty.")) ∧
    validate_file (some ⟨pystr "doc.pdf", some (pystr "application/pdf"), 10, some 999⟩)
        [pystr ".pdf"] 10 =
      validate_file (some ⟨pystr "doc.pdf", some (pystr "application/pdf"), 10, none⟩)
        [pystr ".pdf"] 10 :=
  ⟨(validate_size_gate ⟨pystr "doc.pdf", some (pystr "application/pdf"), 10, none⟩
      [pystr ".pdf"] 10 (by decide) (by decide)
      (fun ct hct => by injection hct with h; subst h; exact Or.inr (by decide))).1.mpr
    (by decide),
   (validate_size_gate ⟨pystr "doc.pdf", some (pystr "application/pdf"), 11, none⟩
      [pystr ".pdf"] 10 (by decide) (by decide)
      (fun ct hct => by injection hct with h; subst h; exact Or.inr (by decide))).2.2.1
    (by decide),
   (validate_size_gate ⟨pystr "doc.pdf", some (pystr "application/pdf"), 0, none⟩
      [pystr ".pdf"] 10 (by decide) (by decide)
      (fun ct hct => by injection hct with h; subst h; exact Or.inr (by decide))).2.1
    rfl,
   (validate_size_gate ⟨pystr "doc.pdf", some (pystr "application/pdf"), 10, none⟩
      [pystr ".pdf"] 10 (by decide) (by decide)
      (fun ct hct => by injection hct with h; subst h; exact Or.inr (by decide))).2.2.2
    ⟨pystr "doc.pdf", some (pystr "application/pdf"), 10, some 999⟩ rfl rfl rfl⟩

/-- Splitting the extension off a basename is a decomposition. -/
theorem splitextBase_append (b : PyStr) :
    (splitextBase b).1 ++ (splitextBase b).2 = b := by
  unfold splitextBase
  split
  · simp
  · next c before heq =>
    split
    · next hany =>
      have hc : c = '.' := by
        have h1 := List.head?_dropWhile_not (fun x => x ≠ '.') b.reverse
        rw [heq] at h1
        simpa using h1
      have hb : (b.reverse).takeWhile (fun x => x ≠ '.') ++ (c :: before) =
          b.reverse := by
        conv_rhs => rw [← List.takeWhile_append_dropWhile (fun x => x ≠ '.') b.reverse]
        rw [heq]
      have hb2 := congrArg List.reverse hb
      rw [List.reverse_append, List.reverse_reverse] at hb2
      rw [hc] at hb2
      dsimp only
      conv_rhs => rw [← hb2]
      rw [List.reverse_cons, List.append_assoc, List.singleton_append]
    · simp

/-- The directory part and basename decompose a path. -/
theorem dirPart_append_basename (p : PyStr) :
    dirPart p ++ os_path_basename p = p := by
  unfold dirPart os_path_basename
  rw [← List.reverse_append, List.takeWhile_append_dropWhile, List.reverse_reverse]

/-- The stem and extension produced by `os.path.splitext` reassemble to
the original path. -/
theorem splitext_append_eq (p : PyStr) :
    (os_path_splitext p).1 ++ (os_path_splitext p).2 = p := by
  unfold os_path_splitext
  dsimp only
  rw [List.append_assoc, splitextBase_append, dirPart_append_basename]

/-- A basename contains no slash. -/
theorem basename_no_slash (p : PyStr) : '/' ∉ os_path_basename p := by
  unfold os_path_basename
  intro hmem
  rw [List.mem_reverse] at hmem
  have := List.mem_takeWhile_imp hmem
  simp at this

/-- Joining a slash-free component onto any directory leaves that
component as the basename. -/
theorem basename_join (a b : PyStr) (hb : '/' ∉ b) :
    os_path_basename (os_path_join a b) = b := by
  have hq : ∀ c ∈ b.reverse, (fun c => decide (c ≠ '/')) c = true := by
    intro c hc
    rw [List.mem_reverse] at hc
    simp only [decide_eq_true_eq]
    exact fun h => hb (h ▸ hc)
  unfold os_path_join
  split
  · next hhead =>
    exfalso
    cases b with
    | nil => simp at hhead
    | cons x t =>
      simp at hhead
      exact hb (hhead ▸ List.mem_cons_self x t)
  · split
    · next hcase =>
      unfold os_path_basename
      rw [List.reverse_append, List.takeWhile_append_of_pos hq]
      rcases hcase with h0 | hlast
      · rw [h0]; simp
      · have hhd : a.reverse.head? = some '/' := by
          rw [List.head?_reverse]; exact hlast
        cases ha : a.reverse with
        | nil => rw [ha] at hhd; simp at hhd
        | cons x t =>
          rw [ha] at hhd
          simp only [List.head?_cons, Option.some.injEq] at hhd
          rw [hhd, List.takeWhile_cons_of_neg (by simp)]
          simp
    · unfold os_path_basename
      rw [List.reverse_append, List.reverse_cons, List.append_assoc,
        List.takeWhile_append_of_pos hq, List.singleton_append,
        List.takeWhile_cons_of_neg (by simp), List.append_nil,
        List.reverse_reverse]

/-- Prepending dot-free characters to a basename that has an extension
does not change the extension. -/
theorem splitextBase_prepend (u b : PyStr)
    (hne : (splitextBase b).2 ≠ []) :
    (splitextBase (u ++ b)).2 = (splitextBase b).2 := by
  rcases hdrop : (b.reverse).dropWhile (fun c => c ≠ '.') with _ | ⟨c, before⟩
  · exfalso
    apply hne
    unfold splitextBase
    rw [hdrop]
  · by_cases hany : (before.any fun c => decide (c ≠ '.')) = true
    · have hlen : ¬ ((b.reverse).takeWhile (fun c => c ≠ '.')).length =
          b.reverse.length := by
        have hsum := congrArg List.length
          (List.takeWhile_append_dropWhile (fun c => decide (c ≠ '.')) b.reverse)
        rw [List.length_append, hdrop] at hsum
        simp only [List.length_cons] at hsum
        omega
      have hd2 : ((u ++ b).reverse).dropWhile (fun c => c ≠ '.') =
          c :: (before ++ u.reverse) := by
        rw [List.reverse_append, List.dropWhile_append, hdrop]
        simp
      have ht2 : ((u ++ b).reverse).takeWhile (fun c => c ≠ '.') =
          (b.reverse).takeWhile (fun c => c ≠ '.') := by
        rw [List.reverse_append, List.takeWhile_append, if_neg hlen]
      have hany2 : ((before ++ u.reverse).any fun c => decide (c ≠ '.')) = true := by
        rw [List.any_append, hany]
        simp
      unfold splitextBase
      rw [hdrop, hd2]
      dsimp only
      rw [if_pos hany, if_pos hany2, ht2]
    · exfalso
      apply hne
      unfold splitextBase
      rw [hdrop]
      dsimp only
      rw [if_neg hany]

/-- A successful validation implies the lowercased extension of the
submitted filename is one of the accepted extensions. -/
theorem validate_file_ext_mem (f : UploadFile) (allowed : List PyStr)
    (max_size : Nat)
    (hv : (validate_file (some f) allowed max_size).1 = true) :
    pyLower (os_path_splitext f.filename).2 ∈ allowed := by
  simp only [validate_file] at hv
  split at hv
  · cases hv
  · split at hv
    · cases hv
    · next h => exact not_not.mp h

/-- Facts about every registered mode, by enumeration: the output
extension is not among the accepted input extensions, it is already
lowercase, and the empty extension is never accepted. -/
theorem mode_table_facts (kv : PyStr × ModeSpec) (hkv : kv ∈ MODES) :
    kv.2.ext ∉ kv.2.input_ext ∧ pyLower kv.2.ext = kv.2.ext ∧
    [] ∉ kv.2.input_ext := by
  simp only [ MODES, List.mem_cons, List.not_mem_nil, or_false] at hkv
  rcases hkv with rfl | rfl | rfl | rfl <;>
    exact ⟨by decide, by decide, by decide⟩

/-- When the submitted filename has a non-empty extension, the
generated input path `{folder}/{uid}_{basename}` has exactly that
extension, for any slash-free job identifier. -/
theorem srcPath_ext (folder uid filename : PyStr)
    (huid : '/' ∉ uid)
    (hne : (os_path_splitext filename).2 ≠ []) :
    (os_path_splitext (srcPath folder uid filename)).2 =
      (os_path_splitext filename).2 := by
  have hb : '/' ∉ uid ++ '_' :: os_path_basename filename := by
    intro hmem
    rcases List.mem_append.mp hmem with hmem | hmem
    · exact huid hmem
    · rcases List.mem_cons.mp hmem with hmem | hmem
      · cases hmem
      · exact basename_no_slash filename hmem
  have hbase : os_path_basename (srcPath folder uid filename) =
      uid ++ '_' :: os_path_basename filename :=
    basename_join folder (uid ++ '_' :: os_path_basename filename) hb
  show (splitextBase (os_path_basename (srcPath folder uid filename))).2 =
    (os_path_splitext filename).2
  rw [hbase]
  have hsplit : uid ++ '_' :: os_path_basename filename =
      (uid ++ ['_']) ++ os_path_basename filename := by
    rw [List.append_assoc, List.singleton_append]
  rw [hsplit]
  exact splitextBase_prepend (uid ++ ['_']) (os_path_basename filename) hne

/-- C10: no registered conversion mode lists its own output extension
among its accepted input extensions, and consequently, for every upload
that passes validation for the selected mode, the generated output
path (the input path with the extension swapped) differs from the
input path — a conversion never overwrites its own input file. -/
theorem modes_no_self_overwrite :
    (∀ kv ∈ MODES, kv.2.ext ∉ kv.2.input_ext) ∧
    (∀ (m : PyStr) (spec : ModeSpec) (f : UploadFile)
        (folder uid : PyStr) (max_size : Nat),
      MODES_get m = some spec →
      (validate_file (some f) spec.input_ext max_size).1 = true →
      '/' ∉ uid →
      outPath folder uid f.filename spec.ext ≠ srcPath folder uid f.filename) := by
  constructor
  · intro kv hkv
    exact (mode_table_facts kv hkv).1
  · intro m spec f folder uid max_size hm hv hslash hcontra
    obtain ⟨kv, hfind, hkv2⟩ : ∃ kv, MODES.find? (fun kv => kv.1 == m) = some kv ∧
        kv.2 = spec := by
      unfold MODES_get at hm
      rcases hmap : MODES.find? (fun kv => kv.1 == m) with _ | kv
      · rw [hmap] at hm; cases hm
      · rw [hmap] at hm
        refine ⟨kv, hmap, ?_⟩
        simpa using hm
    subst hkv2
    have hmem : kv ∈ MODES := List.mem_of_find?_eq_some hfind
    obtain ⟨hni, hlow, hnil⟩ := mode_table_facts kv hmem
    have hvm := validate_file_ext_mem f kv.2.input_ext max_size hv
    have hEne : (os_path_splitext f.filename).2 ≠ [] := by
      intro h0
      rw [h0] at hvm
      simp only [pyLower, List.map_nil] at hvm
      exact hnil hvm
    have hsrc_ext := srcPath_ext folder uid f.filename hslash hEne
    have hsplit := splitext_append_eq (srcPath folder uid f.filename)
    unfold outPath at hcontra
    conv_rhs at hcontra => rw [← hsplit]
    have hexteq : kv.2.ext = (os_path_splitext (srcPath folder uid f.filename)).2 :=
      List.append_cancel_left hcontra
    rw [hsrc_ext] at hexteq
    have : pyLower kv.2.ext ∈ kv.2.input_ext := by
      rw [hexteq]
      exact hvm
    rw [hlow] at this
    exact hni this

/-- C10 witness: the pdf-to-word mode does not accept `.docx` input,
and for a concrete validated `.pdf` upload with a concrete job id the
generated output path differs from the input path. -/
theorem modes_no_self_overwrite_witness :
    (pystr "pdf-to-word", (⟨pystr ".docx", [pystr ".pdf"]⟩ : ModeSpec)) ∈ MODES ∧
    (⟨pystr ".docx", [pystr ".pdf"]⟩ : ModeSpec).ext ∉
      (⟨pystr ".docx", [pystr ".pdf"]⟩ : ModeSpec).input_ext ∧
    MODES_get (pystr "pdf-to-word") = some ⟨pystr ".docx", [pystr ".pdf"]⟩ ∧
    (validate_file (some samplePdfUpload) [pystr ".pdf"] 1000).1 = true ∧
    outPath (pystr "uploads") (pystr "abc123") samplePdfUpload.filename
        (pystr ".docx") ≠
      srcPath (pystr "uploads") (pystr "abc123") samplePdfUpload.filename :=
  ⟨by decide,
   modes_no_self_overwrite.1
     (pystr "pdf-to-word", (⟨pystr ".docx", [pystr ".pdf"]⟩ : ModeSpec))
     (by decide),
   by decide, by decide,
   modes_no_self_overwrite.2 (pystr "pdf-to-word") ⟨pystr ".docx", [pystr ".pdf"]⟩
     samplePdfUpload (pystr "uploads") (pystr "abc123") 1000 (by decide) (by decide)
     (by decide)⟩
